/-
  Verification of the calorie-tracking core of the Samaanai Streamlit app.

  Shallow embedding of:
    - allpages/utils.py  : get_thursday_to_wednesday_range
    - db.py              : get_calorie_data, get_current_weight_loss_goal,
                           insert_weight_loss_goal (table semantics under
                           PostgreSQL unique-constraint / ON CONFLICT rules)
    - allpages/calorie_counter.py : the goal-summary section of
                           calorie_counter_page

  Calendar dates are modelled as proleptic-Gregorian ordinals (Python's
  date.toordinal(): 0001-01-01 = 1), so date arithmetic with timedelta(days=k)
  is integer addition and date.weekday() (Monday=0 .. Sunday=6) is
  (ordinal - 1) mod 7.  Decimal quantities (goal rate, RMR after float())
  are modelled as rationals.
-/
import Mathlib

namespace Samaanai

/-! ## Calendar model -/

/-- Python `date.weekday()`: Monday = 0 .. Sunday = 6, for a date given by its
proleptic-Gregorian ordinal (ordinal 1 = 0001-01-01, a Monday). -/
def weekday (ordinal : Int) : Int := (ordinal + 6) % 7

/-- Gregorian leap-year rule. -/
def isLeap (y : Int) : Bool := (y % 4 == 0 && y % 100 != 0) || y % 400 == 0

/-- Length of month `m` (1..12) in year `y`. -/
def daysInMonth (y : Int) (m : Nat) : Int :=
  match m with
  | 1 => 31 | 2 => if isLeap y then 29 else 28 | 3 => 31 | 4 => 30
  | 5 => 31 | 6 => 30 | 7 => 31 | 8 => 31 | 9 => 30 | 10 => 31
  | 11 => 30 | 12 => 31 | _ => 0

/-- Days of year `y` strictly before month `m`. -/
def daysBeforeMonth (y : Int) (m : Nat) : Int :=
  ((List.range (m - 1)).map (fun i => daysInMonth y (i + 1))).sum

/-- Proleptic-Gregorian ordinal of a civil date, as Python's
`date(y, m, d).toordinal()` computes it. -/
def toordinal (y : Int) (m : Nat) (d : Int) : Int :=
  365 * (y - 1) + (y - 1) / 4 - (y - 1) / 100 + (y - 1) / 400
    + daysBeforeMonth y m + d

/-! ## allpages/utils.py : get_thursday_to_wednesday_range -/

/-- Embeds `get_thursday_to_wednesday_range(ref_date)` from
`allpages/utils.py`: the Thursday-to-Wednesday range containing `ref_date`. -/
def get_thursday_to_wednesday_range (ref_date : Int) : Int × Int :=
  let ref_date_weekday := weekday ref_date
  let days_since_thursday := (ref_date_weekday - 3) % 7
  let start_date := ref_date - days_since_thursday
  let end_date := start_date + 6
  (start_date, end_date)

/-! ## db.py : get_calorie_data

The `health_calorie_intake` table has a UNIQUE `date` column, `exercise`
and `weight`; `health_meal_details` rows are joined to an intake row and
carry a `meal_type` and `calories` (the protein/fiber/carbs columns are not
read by `get_calorie_data`).  A `DailyRecord` is one intake row together
with its joined meal rows. -/

/-- One row of `health_calorie_intake` with its joined `health_meal_details`
rows (`meal_type`, `calories`). -/
structure DailyRecord where
  date : Int
  exercise : Int
  weight : Rat
  meals : List (String × Int)
deriving DecidableEq, Repr

/-- `SUM(CASE WHEN md.meal_type = t THEN md.calories ELSE 0 END)` over the
meal rows joined to one intake row; an intake row with no meal row of type
`t` (or no meal rows at all, via the LEFT JOIN) contributes 0. -/
def mealSum (meals : List (String × Int)) (t : String) : Int :=
  (meals.map (fun m => if m.1 = t then m.2 else 0)).sum

/-- One row of the summary DataFrame built by `get_calorie_data`, including
the derived `Total Sum` column. -/
structure SummaryRow where
  date : Int
  breakfast_calories : Int
  lunch_calories : Int
  dinner_calories : Int
  snacks_calories : Int
  exercise_calories : Int
  totalSum : Int
deriving DecidableEq, Repr

/-- The summary row the SQL query and the
`df['Total Sum'] = breakfast + lunch + dinner + snacks - exercise`
assignment produce for one intake date. -/
def toSummaryRow (r : DailyRecord) : SummaryRow :=
  let b := mealSum r.meals "breakfast"
  let l := mealSum r.meals "lunch"
  let d := mealSum r.meals "dinner"
  let s := mealSum r.meals "snacks"
  ⟨r.date, b, l, d, s, r.exercise, b + l + d + s - r.exercise⟩

/-- Insert a record into a list sorted by ascending date (auxiliary for
`ORDER BY ci.date`). -/
def insertByDate (r : DailyRecord) : List DailyRecord → List DailyRecord
  | [] => [r]
  | x :: xs => if r.date ≤ x.date then r :: x :: xs else x :: insertByDate r xs

/-- `ORDER BY ci.date`: sort the records by ascending date. -/
def sortByDate : List DailyRecord → List DailyRecord
  | [] => []
  | x :: xs => insertByDate x (sortByDate xs)

/-- Embeds `get_calorie_data(conn, start_date, end_date)` from `db.py`.
The underlying retrieval either yields the stored records or raises
(`Except.error`); the function's `try/except` catches any exception and
returns an empty DataFrame.  On success it keeps the rows with
`start_date <= ci.date <= end_date` (one group per date, since `date` is
UNIQUE), orders them by ascending date, and computes the per-meal sums and
the `Total Sum` column. -/
def get_calorie_data (fetch : Except String (List DailyRecord))
    (start_date end_date : Int) : List SummaryRow :=
  match fetch with
  | .error _ => []
  | .ok records =>
      let inRange := records.filter
        (fun r => decide (start_date ≤ r.date ∧ r.date ≤ end_date))
      (sortByDate inRange).map toSummaryRow

/-- `df['Total Sum'].sum()` over a summary DataFrame. -/
def total_net (out : List SummaryRow) : Int :=
  (out.map (fun s => s.totalSum)).sum

/-- Sample intake row: date 5, no exercise, no meal rows. -/
def rec5 : DailyRecord := ⟨5, 0, 150, []⟩

/-- Sample intake row: date 3, 100 exercise calories, one breakfast row. -/
def rec3 : DailyRecord := ⟨3, 100, 151, [("breakfast", 300)]⟩

/-- The spec's example record: 2024-06-06, breakfast 300, lunch 500,
dinner 600, no snacks entry, 200 exercise calories. -/
def specRecord : DailyRecord :=
  ⟨toordinal 2024 6 6, 200, 150,
    [("breakfast", 300), ("lunch", 500), ("dinner", 600)]⟩

/-! ## db.py : weight-loss goal table

`health_weight_loss_goal` rows: `goal_lbs_per_week NUMERIC`, `start_date
DATE`, `end_date DATE` (nullable), `rmr INT`, with a
`UNIQUE(start_date, end_date)` constraint.  PostgreSQL unique constraints
treat NULLs as distinct, so two rows with NULL `end_date` never conflict. -/

/-- One row of `health_weight_loss_goal`. -/
structure GoalRow where
  goal_lbs_per_week : Rat
  start_date : Int
  end_date : Option Int
  rmr : Int
deriving DecidableEq, Repr

/-- Embeds `insert_weight_loss_goal(conn, goal_lbs_per_week, start_date,
rmr_value, end_date)` from `db.py` under PostgreSQL semantics.  With a
non-null `end_date`, `ON CONFLICT (start_date, end_date) DO UPDATE`
replaces the rate and rmr of the row with that exact key.  With a NULL
`end_date` the arbiter unique index never matches (NULLs are distinct in a
unique constraint), so the INSERT always adds a fresh row. -/
def insert_weight_loss_goal (table : List GoalRow) (goal_lbs_per_week : Rat)
    (start_date : Int) (rmr_value : Int) (end_date : Option Int) :
    List GoalRow :=
  match end_date with
  | some e =>
      if table.any (fun g => decide (g.start_date = start_date ∧ g.end_date = some e)) then
        table.map (fun g =>
          if g.start_date = start_date ∧ g.end_date = some e then
            { g with goal_lbs_per_week := goal_lbs_per_week, rmr := rmr_value }
          else g)
      else table ++ [⟨goal_lbs_per_week, start_date, some e, rmr_value⟩]
  | none => table ++ [⟨goal_lbs_per_week, start_date, none, rmr_value⟩]

/-- Result of `get_current_weight_loss_goal`: either the fetched row, or the
`(None, None, None, None)` tuple returned when no row has a NULL
`end_date`. -/
inductive GoalFetch where
  | row (goal_lbs_per_week : Rat) (start_date : Int) (end_date : Option Int)
        (rmr : Int)
  | noneTuple
deriving DecidableEq, Repr

/-- Python truthiness of the value `get_current_weight_loss_goal` returns:
a SQLAlchemy `Row` is truthy, and the `(None, None, None, None)` tuple is a
non-empty tuple, which is also truthy. -/
def GoalFetch.truthy : GoalFetch → Bool
  | .row _ _ _ _ => true
  | .noneTuple => true

/-- `ORDER BY start_date DESC LIMIT 1` over a list of rows: the row with the
greatest `start_date`, if any. -/
def latestByStart : List GoalRow → Option GoalRow
  | [] => none
  | g :: gs =>
      match latestByStart gs with
      | none => some g
      | some g' => some (if g.start_date < g'.start_date then g' else g)

/-- Embeds `get_current_weight_loss_goal(conn)` from `db.py`:
`SELECT goal_lbs_per_week, start_date, end_date, rmr FROM
health_weight_loss_goal WHERE end_date IS NULL ORDER BY start_date DESC
LIMIT 1`, returning the row if one exists and `(None, None, None, None)`
otherwise. -/
def get_current_weight_loss_goal (table : List GoalRow) : GoalFetch :=
  match latestByStart (table.filter (fun g => g.end_date == none)) with
  | some g => .row g.goal_lbs_per_week g.start_date g.end_date g.rmr
  | none => .noneTuple

/-! ## allpages/calorie_counter.py : goal-summary section -/

/-- The caller's unpacking of `current_goal_data`:
`current_goal = float(...) if ... is not None else 0.0` and
`current_rmr = float(...) if ... is not None else 1843.0`. -/
def unpack_goal : GoalFetch → Rat × Rat
  | .row g _ _ rmr => (g, (rmr : Rat))
  | .noneTuple => (0, 1843)

/-- What the page's comparison against the weekly target writes: either
"You are … calories above your target." or "You are … calories below your
target.". -/
inductive GoalReport where
  | above (amount : Rat)
  | below (amount : Rat)
deriving DecidableEq, Repr

/-- `if total_calories > weekly_target_calories: … above … else: … below …`
from `calorie_counter_page`. -/
def goal_report (weekly_target total : Rat) : GoalReport :=
  if weekly_target < total then .above (total - weekly_target)
  else .below (weekly_target - total)

/-- `weekly_target_calories = (current_rmr - (current_goal * 500)) * 7` from
`calorie_counter_page`. -/
def weekly_target_calories (current_rmr current_goal : Rat) : Rat :=
  (current_rmr - current_goal * 500) * 7

/-- What the Goal Summary section of `calorie_counter_page` displays. -/
inductive GoalSummaryDisplay where
  | summary (current_goal current_rmr weekly_target total : Rat)
            (report : GoalReport)
  | noGoalSet
deriving DecidableEq, Repr

/-- Embeds the Goal Summary branch of `calorie_counter_page`:
`current_goal_data = get_current_weight_loss_goal(conn)`, then
`if current_goal_data:` renders the numeric summary (goal, RMR, weekly
target, total and the above/below line) and the `else:` branch writes
"No weight loss goal set.".  `total_calories` is `df['Total Sum'].sum()`. -/
def goal_summary_section (fetch : GoalFetch) (total_calories : Rat) :
    GoalSummaryDisplay :=
  if fetch.truthy then
    let p := unpack_goal fetch
    let wt := weekly_target_calories p.2 p.1
    .summary p.1 p.2 wt total_calories (goal_report wt total_calories)
  else .noGoalSet

/-! ## Sorting lemmas -/

theorem insertByDate_perm (r : DailyRecord) (l : List DailyRecord) :
    List.Perm (insertByDate r l) (r :: l) := by
  induction l with
  | nil => simp [insertByDate]
  | cons x xs ih =>
      by_cases h : r.date ≤ x.date
      · simp [insertByDate, h]
      · simp only [insertByDate, if_neg h]
        exact ((ih.cons x).trans (List.Perm.swap r x xs))

theorem sortByDate_perm (l : List DailyRecord) :
    List.Perm (sortByDate l) l := by
  induction l with
  | nil => simp [sortByDate]
  | cons x xs ih =>
      exact (insertByDate_perm x (sortByDate xs)).trans (ih.cons x)

theorem sorted_insertByDate (r : DailyRecord) (l : List DailyRecord)
    (h : List.Sorted (fun a b : DailyRecord => a.date ≤ b.date) l) :
    List.Sorted (fun a b : DailyRecord => a.date ≤ b.date)
      (insertByDate r l) := by
  induction l with
  | nil => simp [insertByDate]
  | cons x xs ih =>
      rcases List.sorted_cons.mp h with ⟨hx, hxs⟩
      by_cases hr : r.date ≤ x.date
      · simp only [insertByDate, if_pos hr]
        refine List.sorted_cons.mpr ⟨?_, h⟩
        intro b hb
        rcases List.mem_cons.mp hb with hb | hb
        · subst hb; exact hr
        · exact hr.trans (hx b hb)
      · simp only [insertByDate, if_neg hr]
        refine List.sorted_cons.mpr ⟨?_, ih hxs⟩
        intro b hb
        rcases List.mem_cons.mp ((insertByDate_perm r xs).mem_iff.mp hb) with hb' | hb'
        · subst hb'; exact le_of_not_le hr
        · exact hx b hb'

theorem sorted_sortByDate (l : List DailyRecord) :
    List.Sorted (fun a b : DailyRecord => a.date ≤ b.date) (sortByDate l) := by
  induction l with
  | nil => simp [sortByDate]
  | cons x xs ih => exact sorted_insertByDate x (sortByDate xs) ih

/-! ## Aggregation helper lemmas -/

theorem mealSum_eq_zero_of_absent (t : String) :
    ∀ meals : List (String × Int), (∀ m ∈ meals, m.1 ≠ t) →
    mealSum meals t = 0 := by
  intro meals
  induction meals with
  | nil => intro _; rfl
  | cons m ms ih =>
      intro h
      simp only [mealSum, List.map_cons, List.sum_cons] at *
      rw [if_neg (h m (List.mem_cons_self m ms))]
      rw [ih (fun m' hm' => h m' (List.mem_cons_of_mem m hm'))]
      simp

theorem count_date_unique (r : DailyRecord) :
    ∀ records : List DailyRecord, (records.map DailyRecord.date).Nodup →
    r ∈ records →
    records.countP (fun x => decide (x.date = r.date)) = 1 := by
  intro records
  induction records with
  | nil => intro _ h; cases h
  | cons x xs ih =>
      intro hnd hr
      have hnd' : (∀ y ∈ xs, ¬ y.date = x.date)
          ∧ (xs.map DailyRecord.date).Nodup := by simpa using hnd
      rcases hnd' with ⟨hx, hxs⟩
      rcases List.mem_cons.mp hr with rfl | hr'
      · rw [List.countP_cons_of_pos _ _ (by simp)]
        have hz : xs.countP (fun y => decide (y.date = r.date)) = 0 := by
          rw [List.countP_eq_zero]
          intro y hy
          simpa using hx y hy
        simp [hz]
      · have hxr : ¬(x.date = r.date) := fun he => hx r hr' he.symm
        rw [List.countP_cons_of_neg _ _ (by simpa using hxr)]
        exact ih hxs hr'

theorem get_calorie_data_ok (records : List DailyRecord) (a b : Int) :
    get_calorie_data (.ok records) a b
      = (sortByDate (records.filter
          (fun r => decide (a ≤ r.date ∧ r.date ≤ b)))).map toSummaryRow := rfl

/-! ## Claim theorems -/

/-- **C3** — For every date `d`, `get_thursday_to_wednesday_range` computes
`offset = (weekday d - 3) mod 7` (Monday=0..Sunday=6), `start = d - offset`,
`end = start + 6`; hence `end = start + 6`, `start ≤ d ≤ end`, and
`weekday start = Thursday (3)`.  The concrete conjuncts check the spec's
example (Monday 2024-06-10 ↦ Thursday 2024-06-06 .. Wednesday 2024-06-12)
and the two boundary weekdays: a Thursday maps to itself (offset 0) and a
Wednesday to six days earlier (offset 6).  The function is total: it is a
Lean `def` defined on all of `Int`. -/
theorem thursday_range_correct :
    (∀ d : Int,
      (get_thursday_to_wednesday_range d).1 = d - ((weekday d - 3) % 7) ∧
      (get_thursday_to_wednesday_range d).2 = (get_thursday_to_wednesday_range d).1 + 6 ∧
      (get_thursday_to_wednesday_range d).1 ≤ d ∧
      d ≤ (get_thursday_to_wednesday_range d).2 ∧
      weekday (get_thursday_to_wednesday_range d).1 = 3)
    ∧ get_thursday_to_wednesday_range (toordinal 2024 6 10)
        = (toordinal 2024 6 6, toordinal 2024 6 12)
    ∧ weekday (toordinal 2024 6 10) = 0
    ∧ get_thursday_to_wednesday_range (toordinal 2024 6 6)
        = (toordinal 2024 6 6, toordinal 2024 6 12)
    ∧ weekday (toordinal 2024 6 6) = 3
    ∧ get_thursday_to_wednesday_range (toordinal 2024 6 12)
        = (toordinal 2024 6 6, toordinal 2024 6 12)
    ∧ weekday (toordinal 2024 6 12) = 2 := by
  refine ⟨fun d => ?_, by decide, by decide, by decide, by decide, by decide, by decide⟩
  dsimp only [get_thursday_to_wednesday_range, weekday]
  omega

/-- **C8** — For every date `d`, the period computed for `d - 7` is the
immediately preceding period: start and end are each exactly 7 days earlier,
and the earlier period's end is strictly before the later period's start. -/
theorem thursday_range_previous_period :
    ∀ d : Int,
      (get_thursday_to_wednesday_range (d - 7)).1
        = (get_thursday_to_wednesday_range d).1 - 7 ∧
      (get_thursday_to_wednesday_range (d - 7)).2
        = (get_thursday_to_wednesday_range d).2 - 7 ∧
      (get_thursday_to_wednesday_range (d - 7)).2
        < (get_thursday_to_wednesday_range d).1 := by
  intro d
  dsimp only [get_thursday_to_wednesday_range, weekday]
  omega

/-- **C4** — Every record included in the aggregation output has
`Total Sum = breakfast + lunch + dinner + snacks - exercise`; a meal type
with no recorded entry contributes 0; and the spec's example record
(breakfast 300, lunch 500, dinner 600, no snacks entry, exercise 200)
yields total net calories 1200. -/
theorem total_sum_formula :
    (∀ (fetch : Except String (List DailyRecord)) (a b : Int)
        (s : SummaryRow), s ∈ get_calorie_data fetch a b →
        s.totalSum = s.breakfast_calories + s.lunch_calories
          + s.dinner_calories + s.snacks_calories - s.exercise_calories)
    ∧ (∀ (meals : List (String × Int)) (t : String),
        (∀ m ∈ meals, m.1 ≠ t) → mealSum meals t = 0)
    ∧ toSummaryRow specRecord
        = ⟨toordinal 2024 6 6, 300, 500, 600, 0, 200, 1200⟩ := by
  refine ⟨?_, fun meals t h => mealSum_eq_zero_of_absent t meals h, by decide⟩
  intro fetch a b s hs
  match fetch with
  | .error _ => cases hs
  | .ok records =>
      rw [get_calorie_data_ok] at hs
      rcases List.mem_map.mp hs with ⟨r, _, rfl⟩
      rfl

/-- Witness for `total_sum_formula` at the spec's example record. -/
theorem total_sum_formula_witness :
    (toSummaryRow specRecord
        ∈ get_calorie_data (.ok [specRecord]) (toordinal 2024 6 1)
            (toordinal 2024 6 30))
    ∧ (toSummaryRow specRecord).totalSum
        = (toSummaryRow specRecord).breakfast_calories
          + (toSummaryRow specRecord).lunch_calories
          + (toSummaryRow specRecord).dinner_calories
          + (toSummaryRow specRecord).snacks_calories
          - (toSummaryRow specRecord).exercise_calories :=
  ⟨by decide,
   total_sum_formula.1 (.ok [specRecord]) (toordinal 2024 6 1)
     (toordinal 2024 6 30) (toSummaryRow specRecord) (by decide)⟩

/-- **C5** — For a record set with unique dates (the table's UNIQUE `date`
constraint) and any closed range `[a,b]`: every output row's date lies in
`[a,b]`; every output row comes from a stored record in range (no
synthesized rows); every stored record in range appears exactly once; and
the output is ordered by ascending date. -/
theorem summarize_range_correct (records : List DailyRecord) (a b : Int)
    (hnd : (records.map DailyRecord.date).Nodup) :
    (∀ s ∈ get_calorie_data (.ok records) a b, a ≤ s.date ∧ s.date ≤ b)
    ∧ (∀ s ∈ get_calorie_data (.ok records) a b,
        ∃ r ∈ records, toSummaryRow r = s ∧ a ≤ r.date ∧ r.date ≤ b)
    ∧ (∀ r ∈ records, a ≤ r.date → r.date ≤ b →
        ((get_calorie_data (.ok records) a b).filter
            (fun s => decide (s.date = r.date))).length = 1)
    ∧ List.Sorted (· ≤ ·)
        ((get_calorie_data (.ok records) a b).map SummaryRow.date) := by
  have hfrom : ∀ s ∈ get_calorie_data (.ok records) a b,
      ∃ r ∈ records, toSummaryRow r = s ∧ a ≤ r.date ∧ r.date ≤ b := by
    intro s hs
    rw [get_calorie_data_ok] at hs
    rcases List.mem_map.mp hs with ⟨r, hr, rfl⟩
    have hr' := (sortByDate_perm _).mem_iff.mp hr
    rcases List.mem_filter.mp hr' with ⟨hmem, hcond⟩
    exact ⟨r, hmem, rfl, of_decide_eq_true hcond |>.1,
      of_decide_eq_true hcond |>.2⟩
  refine ⟨?_, hfrom, ?_, ?_⟩
  · intro s hs
    rcases hfrom s hs with ⟨r, _, rfl, h1, h2⟩
    exact ⟨h1, h2⟩
  · intro r hr h1 h2
    rw [get_calorie_data_ok, ← List.countP_eq_length_filter]
    rw [List.countP_map]
    have hperm := (sortByDate_perm (records.filter
      (fun r => decide (a ≤ r.date ∧ r.date ≤ b)))).countP_eq
      ((fun s : SummaryRow => decide (s.date = r.date)) ∘ toSummaryRow)
    rw [hperm]
    have hfe : ((fun s : SummaryRow => decide (s.date = r.date)) ∘ toSummaryRow)
        = fun x : DailyRecord => decide (x.date = r.date) := rfl
    rw [hfe]
    have hndf : ((records.filter
        (fun r => decide (a ≤ r.date ∧ r.date ≤ b))).map
          DailyRecord.date).Nodup :=
      ((List.filter_sublist records).map DailyRecord.date).nodup hnd
    have hrf : r ∈ records.filter (fun r => decide (a ≤ r.date ∧ r.date ≤ b)) :=
      List.mem_filter.mpr ⟨hr, decide_eq_true ⟨h1, h2⟩⟩
    exact count_date_unique r _ hndf hrf
  · rw [get_calorie_data_ok]
    have hmm : ((sortByDate (records.filter
        (fun r => decide (a ≤ r.date ∧ r.date ≤ b)))).map toSummaryRow).map
          SummaryRow.date
        = (sortByDate (records.filter
            (fun r => decide (a ≤ r.date ∧ r.date ≤ b)))).map
              (fun r => r.date) := by
      rw [List.map_map]; rfl
    rw [hmm]
    exact List.Pairwise.map _ (fun _ _ h => h) (sorted_sortByDate _)

/-- Witness for `summarize_range_correct` on two concrete records. -/
theorem summarize_range_correct_witness :
    (([rec5, rec3].map DailyRecord.date).Nodup)
    ∧ (∀ s ∈ get_calorie_data (.ok [rec5, rec3]) 0 10,
        0 ≤ s.date ∧ s.date ≤ 10) :=
  ⟨by decide, (summarize_range_correct [rec5, rec3] 0 10 (by decide)).1⟩

/-- **C7 counterexample** — With a stored record at date 5, the inverted
range (start 10, end 0) returns the plain empty result — the very same
value an in-range query over an empty table returns — rather than
signaling any error; and it does not behave like the swapped range (0,10),
which would return the record's summary row. -/
theorem inverted_range_no_error :
    get_calorie_data (.ok [rec5]) 10 0 = []
    ∧ get_calorie_data (.ok [rec5]) 10 0 = get_calorie_data (.ok []) 0 10
    ∧ get_calorie_data (.ok [rec5]) 0 10 = [toSummaryRow rec5] := by
  refine ⟨by decide, by decide, by decide⟩

/-- **C7 amended** — For every retrieval outcome and every pair of dates
with `end < start`, `get_calorie_data` returns the empty result (no row
satisfies the range predicate): no error is signaled, and the endpoints
are not swapped. -/
theorem inverted_range_returns_empty
    (fetch : Except String (List DailyRecord)) (a b : Int) (h : b < a) :
    get_calorie_data fetch a b = [] := by
  match fetch with
  | .error _ => rfl
  | .ok records =>
      rw [get_calorie_data_ok]
      have hf : records.filter (fun r => decide (a ≤ r.date ∧ r.date ≤ b))
          = [] := by
        rw [List.filter_eq_nil_iff]
        intro r _
        simp only [decide_eq_true_eq, not_and, not_le]
        intro h1
        omega
      rw [hf]
      rfl

/-- Witness for `inverted_range_returns_empty` at a concrete inverted
range. -/
theorem inverted_range_returns_empty_witness :
    ((0 : Int) < 10) ∧ get_calorie_data (.ok [rec5, rec3]) 10 0 = [] :=
  ⟨by decide, inverted_range_returns_empty (.ok [rec5, rec3]) 10 0 (by decide)⟩

/-- **C9** — A range containing no stored record yields the empty result
(not an error), and summing `Total Sum` over that empty result is 0. -/
theorem no_records_in_range_empty (records : List DailyRecord) (a b : Int)
    (h : ∀ r ∈ records, ¬(a ≤ r.date ∧ r.date ≤ b)) :
    get_calorie_data (.ok records) a b = []
    ∧ total_net (get_calorie_data (.ok records) a b) = 0 := by
  have hf : records.filter (fun r => decide (a ≤ r.date ∧ r.date ≤ b))
      = [] := by
    rw [List.filter_eq_nil_iff]
    intro r hr
    simpa using h r hr
  have h1 : get_calorie_data (.ok records) a b = [] := by
    rw [get_calorie_data_ok, hf]; rfl
  exact ⟨h1, by rw [h1]; rfl⟩

/-- Witness for `no_records_in_range_empty`: records at dates 5 and 3,
range [10, 20]. -/
theorem no_records_in_range_empty_witness :
    (∀ r ∈ [rec5, rec3], ¬((10 : Int) ≤ r.date ∧ r.date ≤ 20))
    ∧ (get_calorie_data (.ok [rec5, rec3]) 10 20 = []
        ∧ total_net (get_calorie_data (.ok [rec5, rec3]) 10 20) = 0) :=
  ⟨by decide, no_records_in_range_empty [rec5, rec3] 10 20 (by decide)⟩

/-- **C10** — When the underlying retrieval raises, `get_calorie_data`
catches the exception and returns the empty result, identical to the value
returned for an empty table (and hence to any no-records-in-range query):
callers cannot distinguish a retrieval failure from an absence of data. -/
theorem retrieval_failure_indistinguishable :
    ∀ (msg : String) (a b : Int),
      get_calorie_data (.error msg) a b = []
      ∧ get_calorie_data (.error msg) a b = get_calorie_data (.ok []) a b :=
  fun _ _ _ => ⟨rfl, rfl⟩

/-- **C2 counterexample** — Starting from an empty goal table, inserting
two open-ended goals (NULL `end_date`, start dates 739000 and 739010)
leaves TWO stored rows with NULL `end_date`: the second insert adds rather
than updates, because a NULL `end_date` never matches the
`UNIQUE(start_date, end_date)` arbiter of the `ON CONFLICT` clause. -/
theorem open_goal_insert_duplicates :
    ((insert_weight_loss_goal
        (insert_weight_loss_goal [] 1 739000 1800 none)
          2 739010 1900 none).filter
      (fun g => g.end_date == none)).length = 2 := by decide

/-- **C2 amended** — An open-ended insert (NULL `end_date`) always appends
a fresh row and never updates an existing one, so each such insert
increases the number of stored rows with NULL `end_date` by exactly one;
multiple "current" (open-ended) goal rows therefore coexist, and the
at-most-one-null-`end_date` invariant does not hold.  (The reading side
disambiguates with `ORDER BY start_date DESC LIMIT 1`.) -/
theorem open_goal_insert_appends (table : List GoalRow) (rate : Rat)
    (s rmr : Int) :
    insert_weight_loss_goal table rate s rmr none
      = table ++ [⟨rate, s, none, rmr⟩]
    ∧ ((insert_weight_loss_goal table rate s rmr none).filter
          (fun g => g.end_date == none)).length
        = ((table.filter (fun g => g.end_date == none)).length) + 1 := by
  refine ⟨rfl, ?_⟩
  have he : insert_weight_loss_goal table rate s rmr none
      = table ++ [⟨rate, s, none, rmr⟩] := rfl
  rw [he, List.filter_append]
  simp

/-- **C6** — The goal evaluation computes
`weekly_target = (rmr - rate * 500) * 7` and
`total_actual = sum of Total Sum`; a total above the target is reported as
that many calories above (surplus), a total below as that many below; and
the spec's example (rate 2.0, rmr 1843, total 6200) gives target 5901 and
a 299-calorie surplus. -/
theorem goal_evaluation_formulas :
    (∀ current_rmr current_goal : Rat,
      weekly_target_calories current_rmr current_goal
        = (current_rmr - current_goal * 500) * 7)
    ∧ (∀ out : List SummaryRow,
        total_net out = (out.map (fun s => s.totalSum)).sum)
    ∧ (∀ wt c : Rat, 0 < c - wt → goal_report wt c = GoalReport.above (c - wt))
    ∧ (∀ wt c : Rat, c - wt < 0 → goal_report wt c = GoalReport.below (wt - c))
    ∧ weekly_target_calories 1843 2 = 5901
    ∧ goal_report (weekly_target_calories 1843 2) 6200
        = GoalReport.above 299 := by
  refine ⟨fun _ _ => rfl, fun _ => rfl, ?_, ?_, by norm_num [weekly_target_calories], ?_⟩
  · intro wt c h
    simp only [goal_report]
    rw [if_pos (show wt < c by linarith)]
  · intro wt c h
    simp only [goal_report]
    rw [if_neg (show ¬ wt < c by intro hlt; linarith)]
  · have hwt : weekly_target_calories 1843 2 = 5901 := by
      norm_num [weekly_target_calories]
    rw [hwt]
    simp only [goal_report]
    rw [if_pos (show (5901 : Rat) < 6200 by norm_num)]
    norm_num

/-- Witness for `goal_evaluation_formulas` at the spec's example values. -/
theorem goal_evaluation_formulas_witness :
    (0 < (6200 : Rat) - 5901)
    ∧ goal_report 5901 6200 = GoalReport.above (6200 - 5901) :=
  ⟨by norm_num, goal_evaluation_formulas.2.2.1 5901 6200 (by norm_num)⟩

/-- **C1** — With NO goal row having a NULL `end_date` (empty goal table),
`get_current_weight_loss_goal` returns the `(None, None, None, None)`
tuple, but that tuple is truthy in Python, so the page's
`if current_goal_data:` takes the numeric branch: it renders a summary
with the defaulted rate 0.0 and RMR 1843.0 — weekly target 12901 and a
numeric above/below line — instead of the (unreachable) "No weight loss
goal set." branch.  A genuinely configured zero-rate goal with RMR 1843
renders the exact same display, so callers cannot distinguish the two. -/
theorem no_goal_still_numeric :
    get_current_weight_loss_goal [] = GoalFetch.noneTuple
    ∧ goal_summary_section (get_current_weight_loss_goal []) 6200
        = GoalSummaryDisplay.summary 0 1843 12901 6200
            (GoalReport.below (12901 - 6200))
    ∧ goal_summary_section (get_current_weight_loss_goal []) 6200
        ≠ GoalSummaryDisplay.noGoalSet
    ∧ goal_summary_section
          (get_current_weight_loss_goal [⟨0, 739000, none, 1843⟩]) 6200
        = goal_summary_section (get_current_weight_loss_goal []) 6200 := by
  have hwt : weekly_target_calories 1843 0 = 12901 := by
    norm_num [weekly_target_calories]
  have hrep : goal_report 12901 6200 = GoalReport.below (12901 - 6200) := by
    simp only [goal_report]
    rw [if_neg (show ¬ (12901 : Rat) < 6200 by norm_num)]
  have h2 : goal_summary_section (get_current_weight_loss_goal []) 6200
      = GoalSummaryDisplay.summary 0 1843 12901 6200
          (GoalReport.below (12901 - 6200)) := by
    show GoalSummaryDisplay.summary 0 1843 (weekly_target_calories 1843 0)
        6200 (goal_report (weekly_target_calories 1843 0) 6200) = _
    rw [hwt, hrep]
  refine ⟨rfl, h2, ?_, ?_⟩
  · rw [h2]
    intro hcon
    exact GoalSummaryDisplay.noConfusion hcon
  · have hcast : ((1843 : Int) : Rat) = (1843 : Rat) := by norm_num
    show GoalSummaryDisplay.summary 0 ((1843 : Int) : Rat)
        (weekly_target_calories ((1843 : Int) : Rat) 0) 6200
        (goal_report (weekly_target_calories ((1843 : Int) : Rat) 0) 6200)
      = goal_summary_section (get_current_weight_loss_goal []) 6200
    rw [hcast]
    rfl

end Samaanai
